import Mathlib

/-!
Shallow embedding of the query-construction and result-normalization core of
the suse-observability MCP server (Go sources: the components tool, the
monitors tool, and the metrics tools).  External collaborators — the backend
HTTP client, the Go standard-library regexp engine and time/number
formatters — are modelled as explicit oracle parameters; everything else is
translated from the Go source.  Go strings are modelled as Lean strings
(byte-level slicing such as `desc[:47]` is modelled at character
granularity), Go slices as lists, Go `error` returns as `Except String`.
-/

/-- strings.Join: the Go separator join used by the query builder and the
table renderers. -/
def joinSep (sep : String) : List String → String
  | [] => ""
  | [x] => x
  | x :: y :: xs => x ++ sep ++ joinSep sep (y :: xs)

/-- Concatenation of a list of strings, used on the specification side to
describe what the Go string-builder loops produce. -/
def concatAll : List String → String
  | [] => ""
  | x :: xs => x ++ concatAll xs

/-- GetComponentsParams: the parameter object of the getComponents tool. -/
structure GetComponentsParams where
  query : String
  namePattern : String
  type : String
  layer : String
  domain : String
  healthState : String
  withNeighbors : Bool
  withNeighborsLevels : String
  withNeighborsDirection : String
deriving DecidableEq

/-- The normalized Component record (the Go `State` map field is never
populated by `simplifyViewComponents` and never read by the renderer, so it
is omitted). -/
structure Component where
  id : Int
  name : String
  type : String
  identifiers : List String
  tags : List String
  relations : List Int
deriving DecidableEq

/-- The raw backend topology record, as the fields the tool reads. -/
structure ViewComponent where
  id : Int
  name : String
  internalType : String
  identifiers : List String
  tags : List String
  outgoingRelations : List Int
deriving DecidableEq

/-- simplifyViewComponents: maps raw backend entities to normalized
Components, in order. -/
def simplifyViewComponents (components : List ViewComponent) : List Component :=
  components.map fun c =>
    { id := c.id
      name := c.name
      type := c.internalType
      identifiers := c.identifiers
      tags := c.tags
      relations := c.outgoingRelations }

/-- The `queryParts` list built by GetComponents from the named filters, in
the source's fixed append order. -/
def componentQueryParts (params : GetComponentsParams) : List String :=
  (if params.namePattern ≠ "" then ["name = \"" ++ params.namePattern ++ "\""] else []) ++
  (if params.type ≠ "" then ["type = \"" ++ params.type ++ "\""] else []) ++
  (if params.layer ≠ "" then ["layer = \"" ++ params.layer ++ "\""] else []) ++
  (if params.domain ≠ "" then ["domain = \"" ++ params.domain ++ "\""] else []) ++
  (if params.healthState ≠ "" then ["healthstate = \"" ++ params.healthState ++ "\""] else [])

/-- The base query GetComponents assembles from the named filters: the
AND-join of the parts (Go leaves `query` as "" when no part exists; joining
the empty list also yields ""). -/
def componentBaseQuery (params : GetComponentsParams) : String :=
  joinSep " AND " (componentQueryParts params)

/-- The levels argument of withNeighborsOf after its default. -/
def neighborsLevels (params : GetComponentsParams) : String :=
  if params.withNeighborsLevels = "" then "1" else params.withNeighborsLevels

/-- The direction argument of withNeighborsOf after its default. -/
def neighborsDirection (params : GetComponentsParams) : String :=
  if params.withNeighborsDirection = "" then "both" else params.withNeighborsDirection

/-- The query-construction phase of GetComponents (everything before the
backend call): raw query passthrough, named-filter AND-join, the
withNeighborsOf rewrite with its defaults and direction validation, and the
missing-filter check. -/
def buildComponentsQuery (params : GetComponentsParams) : Except String String :=
  if params.query ≠ "" then
    Except.ok params.query
  else if params.withNeighbors then
    if componentBaseQuery params = "" then
      Except.error "with_neighbors requires at least one filter to define the components"
    else if neighborsDirection params = "up" ∨ neighborsDirection params = "down" ∨
        neighborsDirection params = "both" then
      Except.ok (componentBaseQuery params ++ " OR withNeighborsOf(components = (" ++
        componentBaseQuery params ++ "), levels = \"" ++ neighborsLevels params ++
        "\", direction = \"" ++ neighborsDirection params ++ "\")")
    else
      Except.error ("invalid with_neighbors_direction '" ++ neighborsDirection params ++
        "'. Must be 'up', 'down', or 'both'")
  else if componentBaseQuery params = "" then
    Except.error
      "either 'query' or at least one filter (name_pattern, type, layer, domain, healthstate) must be provided"
  else
    Except.ok (componentBaseQuery params)

/-- The identifier cell of a component row: "-" when there are none, all of
them when at most 2, else the first 2 with an ellipsis. -/
def componentIdentifiersCell (identifiers : List String) : String :=
  if identifiers.length > 0 then
    if identifiers.length > 2 then joinSep ", " (identifiers.take 2) ++ "..."
    else joinSep ", " identifiers
  else "-"

/-- One data row of the components table. -/
def componentRow (c : Component) : String :=
  "| " ++ c.name ++ " | " ++ c.type ++ " | " ++ toString c.id ++ " | " ++
    componentIdentifiersCell c.identifiers ++ " |\n"

/-- The parenthesized filter echo in the components summary line. -/
def componentFilterEcho (params : GetComponentsParams) : List String :=
  (if params.namePattern ≠ "" then ["name: " ++ params.namePattern] else []) ++
  (if params.type ≠ "" then ["type: " ++ params.type] else []) ++
  (if params.layer ≠ "" then ["layer: " ++ params.layer] else []) ++
  (if params.domain ≠ "" then ["domain: " ++ params.domain] else []) ++
  (if params.healthState ≠ "" then ["healthstate: " ++ params.healthState] else [])

/-- formatComponentsTable: the zero-match message, or the summary line,
header and one row per component. -/
def formatComponentsTable (components : List Component) (params : GetComponentsParams)
    (query : String) : String :=
  if components.length = 0 then
    "No components found for query: " ++ query
  else
    "Found " ++ toString components.length ++ " component(s)" ++
    (if params.query ≠ "" then " for query: " ++ params.query
     else
       let filters := componentFilterEcho params
       if filters.length > 0 then " (" ++ joinSep ", " filters ++ ")" else "") ++
    ":\n\n" ++
    "| Component Name | Type | ID | Identifiers |\n" ++
    "|---|---|---|---|\n" ++
    (components.foldl (fun s c => s ++ componentRow c) "")

/-- The part of GetComponents after query construction: run the topology
query against the backend oracle and render the result. -/
def runComponentsQuery (backend : String → Except String (List ViewComponent))
    (params : GetComponentsParams) (query : String) : Except String String :=
  match backend query with
  | Except.error e => Except.error ("failed to query topology (STQL: " ++ query ++ "): " ++ e)
  | Except.ok components =>
      Except.ok (formatComponentsTable (simplifyViewComponents components) params query)

/-- GetComponents: the whole tool invocation.  `backend` is the external
SnapShotTopologyQuery collaborator; `Except.ok` is a successful text result,
`Except.error` a tool error. -/
def GetComponents (backend : String → Except String (List ViewComponent))
    (params : GetComponentsParams) : Except String String :=
  match buildComponentsQuery params with
  | Except.error e => Except.error e
  | Except.ok query => runComponentsQuery backend params query

/-- GetMonitorsParams: the parameter object of the getMonitors tool. -/
structure GetMonitorsParams where
  state : String
deriving DecidableEq

/-- The per-monitor runtime counters of the monitors overview (Go ints). -/
structure RuntimeMetrics where
  criticalCount : Int
  deviatingCount : Int
  unknownCount : Int
deriving DecidableEq

/-- The monitor definition fields the tool reads. -/
structure Monitor where
  id : Int
  name : String
  description : String
deriving DecidableEq

/-- One entry of the monitors overview: a monitor with its runtime counters. -/
structure MonitorOverview where
  monitor : Monitor
  runtimeMetrics : RuntimeMetrics
deriving DecidableEq

/-- The monitors-overview response: its list of monitors. -/
structure MonitorsOverviewResponse where
  monitors : List MonitorOverview
deriving DecidableEq

/-- One check-state record of the secondary per-monitor lookup. -/
structure CheckState where
  name : String
  topologyElementId : Int
  topologyElementIdType : String
deriving DecidableEq

/-- The check-states response: its list of states. -/
structure CheckStatesResponse where
  states : List CheckState
deriving DecidableEq

/-- One collected row of the monitors table. -/
structure MonitorRow where
  name : String
  description : String
  affectedCount : Int
  affectedComponent : String
deriving DecidableEq

/-- The runtime counter GetMonitors reads for the requested state (the Go
switch; `count` stays 0 for any other state value). -/
def monitorStateCount (state : String) (metrics : RuntimeMetrics) : Int :=
  if state = "CRITICAL" then metrics.criticalCount
  else if state = "DEVIATING" then metrics.deviatingCount
  else if state = "UNKNOWN" then metrics.unknownCount
  else 0

/-- The component reference rendered in a monitor detail row: `URN:<id>` for
identifier-typed references, `ID:<id>` otherwise. -/
def checkStateRef (cs : CheckState) : String :=
  if cs.topologyElementIdType = "identifier" then "URN:" ++ toString cs.topologyElementId
  else "ID:" ++ toString cs.topologyElementId

/-- One detail row of the monitors table for one affected entity. -/
def monitorDetailRow (mo : MonitorOverview) (count : Int) (cs : CheckState) : MonitorRow :=
  { name := mo.monitor.name
    description := mo.monitor.description
    affectedCount := count
    affectedComponent := cs.name ++ " (" ++ checkStateRef cs ++ ")" }

/-- The fallback row emitted when the check-state lookup fails or is empty. -/
def monitorFallbackRow (mo : MonitorOverview) (count : Int) : MonitorRow :=
  { name := mo.monitor.name
    description := mo.monitor.description
    affectedCount := count
    affectedComponent := "-" }

/-- The rows GetMonitors collects for one overview monitor: none when the
requested-state counter is 0; the fallback row when the check-state lookup
(page size 10, offset 0) errors or is empty; otherwise up to 5 detail rows
plus the continuation row when more than 5 check states came back.
`lookup` is the external GetMonitorCheckStates collaborator, keyed by the
monitor id, the state and the page arguments. -/
def monitorRowsFor (state : String)
    (lookup : Int → String → Nat → Nat → Except String CheckStatesResponse)
    (mo : MonitorOverview) : List MonitorRow :=
  if monitorStateCount state mo.runtimeMetrics = 0 then []
  else
    match lookup mo.monitor.id state 10 0 with
    | Except.error _ => [monitorFallbackRow mo (monitorStateCount state mo.runtimeMetrics)]
    | Except.ok checkStates =>
        if checkStates.states.length = 0 then
          [monitorFallbackRow mo (monitorStateCount state mo.runtimeMetrics)]
        else
          (checkStates.states.take 5).map
            (monitorDetailRow mo (monitorStateCount state mo.runtimeMetrics)) ++
          (if checkStates.states.length > 5 then
            [{ name := mo.monitor.name
               description := "-"
               affectedCount := monitorStateCount state mo.runtimeMetrics
               affectedComponent :=
                 "... and " ++ toString (checkStates.states.length - 5) ++ " more" }]
           else [])

/-- The full collected row list of GetMonitors, across the overview in
order. -/
def monitorRows (state : String)
    (lookup : Int → String → Nat → Nat → Except String CheckStatesResponse)
    (monitors : List MonitorOverview) : List MonitorRow :=
  monitors.flatMap (monitorRowsFor state lookup)

/-- The summary-line monitor count: the Go loop over the rows that counts a
name the first time it is seen. -/
def monitorSummaryCountAux : List MonitorRow → List String → Nat
  | [], _ => 0
  | row :: rows, seen =>
      if row.name ∈ seen then monitorSummaryCountAux rows seen
      else 1 + monitorSummaryCountAux rows (row.name :: seen)

/-- The summary-line monitor count of the rendered monitors table. -/
def monitorSummaryCount (rows : List MonitorRow) : Nat :=
  monitorSummaryCountAux rows []

/-- One rendered row of the monitors table: empty description becomes "-",
descriptions over 50 characters are truncated to 47 plus an ellipsis. -/
def renderMonitorRow (row : MonitorRow) : String :=
  let desc := if row.description = "" then "-" else row.description
  let desc := if desc.length > 50 then desc.take 47 ++ "..." else desc
  "| " ++ row.name ++ " | " ++ desc ++ " | " ++ toString row.affectedCount ++ " | " ++
    row.affectedComponent ++ " |\n"

/-- The rendered monitors table: summary line, header and rows. -/
def renderMonitorsOutput (state : String) (rows : List MonitorRow) : String :=
  "Found " ++ toString (monitorSummaryCount rows) ++ " monitor(s) in " ++ state ++
    " state:\n\n" ++
  "| Monitor Name | Description | Affected Count | Affected Component |\n" ++
  "|---|---|---|---|\n" ++
  (rows.foldl (fun s row => s ++ renderMonitorRow row) "")

/-- GetMonitors: the whole tool invocation.  `overviewO` is the response of
the external GetMonitorsOverview collaborator, `lookup` the external
GetMonitorCheckStates collaborator. -/
def monitorsStateOrDefault (params : GetMonitorsParams) : String :=
  if params.state = "" then "CRITICAL" else params.state

def GetMonitors (overviewO : Except String MonitorsOverviewResponse)
    (lookup : Int → String → Nat → Nat → Except String CheckStatesResponse)
    (params : GetMonitorsParams) : Except String String :=
  if monitorsStateOrDefault params = "CRITICAL" ∨ monitorsStateOrDefault params = "DEVIATING" ∨
      monitorsStateOrDefault params = "UNKNOWN" then
    match overviewO with
    | Except.error e => Except.error ("failed to get monitors overview: " ++ e)
    | Except.ok overview =>
        if (monitorRows (monitorsStateOrDefault params) lookup overview.monitors).length = 0 then
          Except.ok ("No monitors in " ++ monitorsStateOrDefault params ++ " state found.")
        else
          Except.ok (renderMonitorsOutput (monitorsStateOrDefault params)
            (monitorRows (monitorsStateOrDefault params) lookup overview.monitors))
  else
    Except.error ("invalid state '" ++ monitorsStateOrDefault params ++
      "'. Allowed values: CRITICAL, DEVIATING, UNKNOWN")

/-- One row of the metric listing: the per-metric label lookup (an external
collaborator) errors into a "-" cell; an empty label list also renders "-". -/
def metricLabelRow (getLabels : String → Except String (List String))
    (metricName : String) : String :=
  match getLabels metricName with
  | Except.error _ => "| " ++ metricName ++ " | - |\n"
  | Except.ok labels =>
      "| " ++ metricName ++ " | " ++
        (if labels.length > 0 then joinSep ", " labels else "-") ++ " |\n"

/-- ListMetrics: the whole tool invocation.  `backendList` is the response of
the external metric-catalog collaborator (the tool calls it before compiling
the search pattern), `compileRe` the Go regexp compiler (an error carries the
compile error text, a success the match predicate), `getLabels` the external
per-metric label collaborator. -/
def ListMetrics (backendList : Except String (List String))
    (compileRe : String → Except String (String → Bool))
    (getLabels : String → Except String (List String))
    (searchPattern : String) : Except String String :=
  if searchPattern = "" then Except.error "search_pattern is required"
  else
    match backendList with
    | Except.error e => Except.error ("failed to list metrics: " ++ e)
    | Except.ok metrics =>
        match compileRe searchPattern with
        | Except.error e => Except.error ("invalid regex pattern: " ++ e)
        | Except.ok matcher =>
            let filteredMetrics := metrics.filter matcher
            if filteredMetrics.length = 0 then
              Except.ok ("No metrics found matching '" ++ searchPattern ++ "'.")
            else
              let truncated := filteredMetrics.length > 50
              let metricsToProcess :=
                if truncated then filteredMetrics.take 50 else filteredMetrics
              Except.ok
                ("Found " ++ toString filteredMetrics.length ++ " metrics matching '" ++
                   searchPattern ++ "'" ++
                 (if truncated then " (showing first 50)" else "") ++ ":\n\n" ++
                 "| Metric Name | Labels |\n" ++ "|---|---|\n" ++
                 (metricsToProcess.foldl (fun s m => s ++ metricLabelRow getLabels m) "") ++
                 (if truncated then
                   "\n_Note: Showing first 50 of " ++ toString filteredMetrics.length ++
                     " metrics. Use a more specific search pattern to narrow results._\n"
                  else ""))

/-- One sample of a metric series (the value is a Go float64; its rendering
is the external formatter parameter of `formatMetrics`). -/
structure MetricPoint where
  timestamp : Int
  value : Float

/-- One metric series: its label map (modelled as an association list; a Go
map lookup of an absent key yields "") and its ordered samples. -/
structure MetricResult where
  labels : List (String × String)
  points : List MetricPoint

/-- Go map indexing on the label map: the first value bound to the key, or
"" when the key is absent. -/
def lookupLabel (labels : List (String × String)) (k : String) : String :=
  match labels.find? (fun kv => kv.1 = k) with
  | some kv => kv.2
  | none => ""

/-- The label-key set insertion of formatMetrics: keys equal to "__name__"
are skipped, already-seen keys are not repeated. -/
def insertKey (acc : List String) (k : String) : List String :=
  if k ≠ "__name__" ∧ k ∉ acc then acc ++ [k] else acc

/-- The label keys of one series folded into the accumulated key set. -/
def collectSeriesKeys (acc : List String) (labels : List (String × String)) : List String :=
  labels.foldl (fun a kv => insertKey a kv.1) acc

/-- All unique label keys across all series, minus "__name__". -/
def collectLabelKeys (metricsResult : List MetricResult) : List String :=
  metricsResult.foldl (fun a res => collectSeriesKeys a res.labels) []

/-- sort.Strings compares strings bytewise, which on UTF-8 text is the
character-list lexicographic order; that order is stated on `String.data`
(it is equivalent to the string order, but kernel-reducible). -/
instance : IsTotal String fun x y => x.data ≤ y.data :=
  ⟨fun a b => le_total a.data b.data⟩

instance : IsTrans String fun x y => x.data ≤ y.data :=
  ⟨fun _ _ _ h1 h2 => le_trans h1 h2⟩

instance : IsAntisymm String fun x y => x.data ≤ y.data :=
  ⟨fun _ _ h1 h2 => String.ext (le_antisymm h1 h2)⟩

/-- The sorted column keys of the metrics table (sort.Strings). -/
def metricSortedKeys (metricsResult : List MetricResult) : List String :=
  List.insertionSort (fun x y => x.data ≤ y.data) (collectLabelKeys metricsResult)

/-- One label cell of a metrics data row: "-" when the series' value for the
key is "" (so also when the key is absent). -/
def metricLabelCell (labels : List (String × String)) (k : String) : String :=
  if lookupLabel labels k = "" then "-" else lookupLabel labels k

/-- formatMetrics: the zero-series message, or header, separator and one row
per (series, sample) pair, built exactly as the Go string-builder loops do.
`fmtTs` models `time.Unix(...).Format(time.RFC3339)` and `fmtVal` the
`%.4f` rendering, both external standard-library formatters. -/
def formatMetrics (fmtTs : Int → String) (fmtVal : Float → String)
    (metricsResult : List MetricResult) (queryName : String) : String :=
  if metricsResult.length = 0 then "No data found."
  else
    ((metricSortedKeys metricsResult).foldl (fun s k => s ++ " " ++ k ++ " |")
      "| Timestamp | Value |") ++ "\n" ++
    ((metricSortedKeys metricsResult).foldl (fun s _ => s ++ "---|") "|---|---|") ++ "\n" ++
    metricsResult.foldl (fun s res =>
      res.points.foldl (fun s2 p =>
        s2 ++ "| " ++ fmtTs p.timestamp ++ " | " ++ fmtVal p.value ++ " |" ++
        ((metricSortedKeys metricsResult).foldl
          (fun s3 k => s3 ++ " " ++ metricLabelCell res.labels k ++ " |") "") ++
        "\n") s) ""

/-- QueryRangeMetricParams: the parameter object of the range-query tool
(`stop` models the Go `End` field). -/
structure QueryRangeMetricParams where
  query : String
  start : String
  stop : String
  step : String

/-- QueryRangeMetric: the whole tool invocation.  `parseTimeO` models the
wall-clock-dependent parseTime helper, `backend` the external range-query
collaborator (query, start, end, step, timeout). -/
def QueryRangeMetric (parseTimeO : String → Except String Int)
    (backend : String → Int → Int → String → String → Except String (List MetricResult))
    (fmtTs : Int → String) (fmtVal : Float → String)
    (params : QueryRangeMetricParams) : Except String String :=
  match parseTimeO params.start with
  | Except.error e => Except.error ("failed to parse start time: " ++ e)
  | Except.ok start =>
      match parseTimeO params.stop with
      | Except.error e => Except.error ("failed to parse end time: " ++ e)
      | Except.ok stop =>
          let step := if params.step = "" then "1m" else params.step
          match backend params.query start stop step "30s" with
          | Except.error e => Except.error ("failed to query range metri c: " ++ e)
          | Except.ok result =>
              Except.ok (formatMetrics fmtTs fmtVal result params.query)

/-! ### Helper lemmas -/

theorem append_ne_empty_of_left (a b : String) (h : a ≠ "") : a ++ b ≠ "" := by
  intro hc
  have hl := congrArg String.length hc
  rw [String.length_append] at hl
  have h0 : a.length ≠ 0 := fun h0 => h (String.ext (List.length_eq_zero.mp h0))
  simp at hl
  omega

theorem joinSep_cons_ne_empty (sep x : String) (xs : List String) (hx : x ≠ "") :
    joinSep sep (x :: xs) ≠ "" := by
  cases xs with
  | nil => simpa [joinSep] using hx
  | cons y ys =>
      show x ++ sep ++ joinSep sep (y :: ys) ≠ ""
      exact append_ne_empty_of_left _ _ (append_ne_empty_of_left _ _ hx)

theorem componentQueryParts_ne_empty (params : GetComponentsParams) :
    ∀ s ∈ componentQueryParts params, s ≠ "" := by
  intro s hs
  simp only [componentQueryParts, List.mem_append] at hs
  rcases hs with ((((h | h) | h) | h) | h) <;>
    (split at h <;> simp at h) <;>
    (subst h; exact append_ne_empty_of_left _ _ (append_ne_empty_of_left _ _ (by decide)))

theorem componentBaseQuery_eq_empty_iff (params : GetComponentsParams) :
    componentBaseQuery params = "" ↔ componentQueryParts params = [] := by
  constructor
  · intro h
    cases hp : componentQueryParts params with
    | nil => rfl
    | cons x xs =>
        exfalso
        apply joinSep_cons_ne_empty " AND " x xs
          (componentQueryParts_ne_empty params x (hp ▸ List.mem_cons_self x xs))
        rw [componentBaseQuery, hp] at h
        exact h
  · intro h
    rw [componentBaseQuery, h]
    rfl

theorem componentQueryParts_eq_nil_iff (params : GetComponentsParams) :
    componentQueryParts params = [] ↔
      params.namePattern = "" ∧ params.type = "" ∧ params.layer = "" ∧
        params.domain = "" ∧ params.healthState = "" := by
  by_cases h1 : params.namePattern = "" <;>
    by_cases h2 : params.type = "" <;>
      by_cases h3 : params.layer = "" <;>
        by_cases h4 : params.domain = "" <;>
          by_cases h5 : params.healthState = "" <;>
            simp [componentQueryParts, h1, h2, h3, h4, h5]

/-! ### C1 -/

/-- C1: when with_neighbors is requested with an empty raw query and the
named filters produced a non-empty base expression, the final query is
exactly `<base> OR withNeighborsOf(components = (<base>), levels =
"<levels>", direction = "<direction>")`, with levels defaulting to "1" and
direction to "both"; any direction outside up/down/both makes the call fail
with a validation error naming the invalid value (for every backend, so
before any backend call). -/
theorem getComponents_neighbor_rewrite (params : GetComponentsParams)
    (levels direction : String)
    (hraw : params.query = "")
    (hwn : params.withNeighbors = true)
    (hbase : componentBaseQuery params ≠ "")
    (hlv : levels = neighborsLevels params)
    (hdir : direction = neighborsDirection params) :
    (direction = "up" ∨ direction = "down" ∨ direction = "both" →
      buildComponentsQuery params = Except.ok (componentBaseQuery params ++
        " OR withNeighborsOf(components = (" ++ componentBaseQuery params ++
        "), levels = \"" ++ levels ++ "\", direction = \"" ++ direction ++ "\")")) ∧
    (¬(direction = "up" ∨ direction = "down" ∨ direction = "both") →
      ∀ backend, GetComponents backend params = Except.error
        ("invalid with_neighbors_direction '" ++ direction ++
          "'. Must be 'up', 'down', or 'both'")) := by
  subst hlv
  subst hdir
  constructor
  · intro hd
    unfold buildComponentsQuery
    rw [if_neg (by simp [hraw]), if_pos hwn, if_neg hbase, if_pos hd]
  · intro hd backend
    unfold GetComponents buildComponentsQuery
    rw [if_neg (by simp [hraw]), if_pos hwn, if_neg hbase, if_neg hd]

/-- A concrete neighbor-expansion call: name filter, defaults for levels,
direction "down". -/
def cParamsNb : GetComponentsParams :=
  { query := "", namePattern := "redis*", type := "", layer := "", domain := ""
    healthState := "", withNeighbors := true, withNeighborsLevels := ""
    withNeighborsDirection := "down" }

/-- A concrete neighbor-expansion call with an invalid direction. -/
def cParamsNbBad : GetComponentsParams :=
  { query := "", namePattern := "redis*", type := "", layer := "", domain := ""
    healthState := "", withNeighbors := true, withNeighborsLevels := "2"
    withNeighborsDirection := "sideways" }

/-- C1 witness: the rewrite at a concrete call (defaulted levels, direction
"down"), and the validation error at a concrete invalid direction. -/
theorem getComponents_neighbor_rewrite_witness :
    buildComponentsQuery cParamsNb = Except.ok
      ("name = \"redis*\" OR withNeighborsOf(components = (name = \"redis*\"), levels = \"1\", direction = \"down\")") ∧
    GetComponents (fun _ => Except.ok []) cParamsNbBad = Except.error
      "invalid with_neighbors_direction 'sideways'. Must be 'up', 'down', or 'both'" := by
  constructor
  · exact (getComponents_neighbor_rewrite cParamsNb "1" "down" rfl rfl (by decide)
      (by decide) (by decide)).1 (by decide)
  · exact (getComponents_neighbor_rewrite cParamsNbBad "2" "sideways" rfl rfl (by decide)
      (by decide) (by decide)).2 (by decide) _

/-! ### C2 -/

/-- C2: a non-empty raw Query is sent to the backend exactly as given, and
the named filters are ignored entirely: the built query is the raw string,
and the tool proceeds with it for every backend. -/
theorem getComponents_rawQuery_overrides
    (backend : String → Except String (List ViewComponent))
    (params : GetComponentsParams) (h : params.query ≠ "") :
    buildComponentsQuery params = Except.ok params.query ∧
    GetComponents backend params = runComponentsQuery backend params params.query := by
  constructor
  · unfold buildComponentsQuery
    rw [if_pos h]
  · unfold GetComponents buildComponentsQuery
    rw [if_pos h]

/-- A concrete raw-query call whose named filters are all set (and all
ignored). -/
def cParamsRaw : GetComponentsParams :=
  { query := "label = \"env:prod\"", namePattern := "redis*", type := "pod"
    layer := "Containers", domain := "d", healthState := "CRITICAL"
    withNeighbors := false, withNeighborsLevels := "", withNeighborsDirection := "" }

/-- C2 witness: the raw query wins at a concrete call with every named
filter populated. -/
theorem getComponents_rawQuery_overrides_witness :
    buildComponentsQuery cParamsRaw = Except.ok "label = \"env:prod\"" ∧
    GetComponents (fun _ => Except.ok []) cParamsRaw =
      runComponentsQuery (fun _ => Except.ok []) cParamsRaw "label = \"env:prod\"" :=
  getComponents_rawQuery_overrides (fun _ => Except.ok []) cParamsRaw (by decide)

/-! ### C3 -/

/-- C3: with an empty raw Query the base query is the AND-join of
`field = "value"` clauses for exactly the non-empty named filters in the
fixed order name, type, layer, domain, healthstate; it is empty iff every
named filter is empty; and (without neighbor expansion) it is the query the
tool proceeds with. -/
theorem getComponents_namedFilters_base (params : GetComponentsParams)
    (hraw : params.query = "") :
    componentBaseQuery params =
      joinSep " AND "
        ((([("name", params.namePattern), ("type", params.type), ("layer", params.layer),
            ("domain", params.domain), ("healthstate", params.healthState)].filter
              (fun kv => kv.2 ≠ "")).map
            (fun kv => kv.1 ++ " = \"" ++ kv.2 ++ "\""))) ∧
    (componentBaseQuery params = "" ↔
      params.namePattern = "" ∧ params.type = "" ∧ params.layer = "" ∧
        params.domain = "" ∧ params.healthState = "") ∧
    (params.withNeighbors = false → componentBaseQuery params ≠ "" →
      buildComponentsQuery params = Except.ok (componentBaseQuery params)) := by
  refine ⟨?_, ?_, ?_⟩
  · by_cases h1 : params.namePattern = "" <;>
      by_cases h2 : params.type = "" <;>
        by_cases h3 : params.layer = "" <;>
          by_cases h4 : params.domain = "" <;>
            by_cases h5 : params.healthState = "" <;>
              simp [componentBaseQuery, componentQueryParts, h1, h2, h3, h4, h5]
  · exact (componentBaseQuery_eq_empty_iff params).trans (componentQueryParts_eq_nil_iff params)
  · intro hwn hbase
    unfold buildComponentsQuery
    rw [if_neg (by simp [hraw]), hwn, if_neg (by decide), if_neg hbase]

/-- A concrete named-filter call: name, type and healthstate set, layer and
domain empty. -/
def cParamsNamed : GetComponentsParams :=
  { query := "", namePattern := "redis*", type := "pod", layer := "", domain := ""
    healthState := "CRITICAL", withNeighbors := false, withNeighborsLevels := ""
    withNeighborsDirection := "" }

/-- C3 witness: the AND-join at a concrete call, its non-emptiness, and the
query the tool proceeds with. -/
theorem getComponents_namedFilters_base_witness :
    componentBaseQuery cParamsNamed =
      "name = \"redis*\" AND type = \"pod\" AND healthstate = \"CRITICAL\"" ∧
    ¬(componentBaseQuery cParamsNamed = "") ∧
    buildComponentsQuery cParamsNamed = Except.ok (componentBaseQuery cParamsNamed) := by
  have h := getComponents_namedFilters_base cParamsNamed rfl
  refine ⟨by decide, ?_, h.2.2 rfl (by decide)⟩
  rw [h.2.1]
  decide

/-! ### C4 -/

/-- C4: when a monitor with a non-zero counter for the requested state gets
back more than 5 check states, its rows are exactly 5 detail rows (the first
5 check states) followed by exactly one continuation row with description
"-" and affected-component text "... and k more", k = number of returned
check states minus 5. -/
theorem getMonitors_continuation_row (state : String)
    (lookup : Int → String → Nat → Nat → Except String CheckStatesResponse)
    (mo : MonitorOverview) (cs : CheckStatesResponse)
    (hcount : monitorStateCount state mo.runtimeMetrics ≠ 0)
    (hlk : lookup mo.monitor.id state 10 0 = Except.ok cs)
    (hlen : cs.states.length > 5) :
    monitorRowsFor state lookup mo =
      (cs.states.take 5).map (monitorDetailRow mo (monitorStateCount state mo.runtimeMetrics)) ++
        [{ name := mo.monitor.name
           description := "-"
           affectedCount := monitorStateCount state mo.runtimeMetrics
           affectedComponent := "... and " ++ toString (cs.states.length - 5) ++ " more" }] ∧
    ((cs.states.take 5).map
      (monitorDetailRow mo (monitorStateCount state mo.runtimeMetrics))).length = 5 := by
  constructor
  · unfold monitorRowsFor
    rw [if_neg hcount, hlk]
    dsimp only
    rw [if_neg (show ¬cs.states.length = 0 by omega), if_pos hlen]
  · rw [List.length_map, List.length_take]
    omega

/-- A monitor whose DEVIATING counter is 7. -/
def moEx : MonitorOverview :=
  { monitor := { id := 42, name := "mon", description := "desc" }
    runtimeMetrics := { criticalCount := 0, deviatingCount := 7, unknownCount := 0 } }

/-- A check-state lookup result with 8 entries. -/
def csEx : CheckStatesResponse :=
  { states := [⟨"c1", 1, ""⟩, ⟨"c2", 2, ""⟩, ⟨"c3", 3, "identifier"⟩, ⟨"c4", 4, ""⟩,
               ⟨"c5", 5, ""⟩, ⟨"c6", 6, ""⟩, ⟨"c7", 7, ""⟩, ⟨"c8", 8, ""⟩] }

/-- C4 witness: the spec example — counter 7, 8 returned check states, 5
detail rows plus one "... and 3 more" continuation row. -/
theorem getMonitors_continuation_row_witness :
    monitorRowsFor "DEVIATING" (fun _ _ _ _ => Except.ok csEx) moEx =
      (csEx.states.take 5).map (monitorDetailRow moEx 7) ++
        [{ name := "mon", description := "-", affectedCount := 7,
           affectedComponent := "... and 3 more" }] ∧
    ((csEx.states.take 5).map (monitorDetailRow moEx 7)).length = 5 :=
  getMonitors_continuation_row "DEVIATING" (fun _ _ _ _ => Except.ok csEx) moEx csEx
    (by decide) rfl (by decide)

/-! ### C5 helpers -/

theorem monitorRowsFor_zero (state : String)
    (lookup : Int → String → Nat → Nat → Except String CheckStatesResponse)
    (mo : MonitorOverview) (h : monitorStateCount state mo.runtimeMetrics = 0) :
    monitorRowsFor state lookup mo = [] := by
  unfold monitorRowsFor
  rw [if_pos h]

theorem monitorSummaryCountAux_eq (rows : List MonitorRow) : ∀ seen : List String,
    monitorSummaryCountAux rows seen =
      ((rows.map (fun row => row.name)).toFinset \ seen.toFinset).card := by
  induction rows with
  | nil => intro seen; simp [monitorSummaryCountAux]
  | cons r rows ih =>
      intro seen
      by_cases h : r.name ∈ seen
      · rw [monitorSummaryCountAux, if_pos h, ih]
        congr 1
        rw [List.map_cons, List.toFinset_cons,
          Finset.insert_sdiff_of_mem _ (List.mem_toFinset.mpr h)]
      · rw [monitorSummaryCountAux, if_neg h, ih]
        rw [List.map_cons, List.toFinset_cons, List.toFinset_cons, Finset.sdiff_insert,
          Finset.insert_sdiff_of_not_mem _ (by simpa using h)]
        by_cases hS : r.name ∈ (rows.map (fun row => row.name)).toFinset \ seen.toFinset
        · rw [Finset.card_erase_of_mem hS, Finset.insert_eq_self.mpr hS]
          have hpos : 0 < ((rows.map (fun row => row.name)).toFinset \ seen.toFinset).card :=
            Finset.card_pos.mpr ⟨_, hS⟩
          omega
        · rw [Finset.erase_eq_of_not_mem hS, Finset.card_insert_of_not_mem hS]
          omega

theorem monitorSummaryCount_eq (rows : List MonitorRow) :
    monitorSummaryCount rows = ((rows.map (fun row => row.name)).toFinset).card := by
  rw [monitorSummaryCount, monitorSummaryCountAux_eq]
  simp

theorem toFinset_map_const_of_ne_nil {α : Type} (l : List α) (f : α → String) (a : String)
    (hconst : ∀ x ∈ l, f x = a) (hne : l ≠ []) : (l.map f).toFinset = {a} := by
  cases l with
  | nil => exact absurd rfl hne
  | cons x xs =>
      ext b
      simp only [List.mem_toFinset, List.mem_map, Finset.mem_singleton]
      constructor
      · rintro ⟨y, hy, rfl⟩
        exact hconst y hy
      · intro hb
        exact ⟨x, List.mem_cons_self x xs, (hconst x (List.mem_cons_self x xs)).trans hb.symm⟩

theorem monitorRowsFor_names (state : String)
    (lookup : Int → String → Nat → Nat → Except String CheckStatesResponse)
    (mo : MonitorOverview) :
    ∀ row ∈ monitorRowsFor state lookup mo, row.name = mo.monitor.name := by
  intro row hrow
  unfold monitorRowsFor at hrow
  split at hrow
  · simp at hrow
  · split at hrow
    · rw [List.mem_singleton.mp hrow]; rfl
    · split at hrow
      · rw [List.mem_singleton.mp hrow]; rfl
      · rcases List.mem_append.mp hrow with h | h
        · rcases List.mem_map.mp h with ⟨cs, _, rfl⟩; rfl
        · split at h
          · rw [List.mem_singleton.mp h]
          · simp at h

theorem monitorRowsFor_ne_nil (state : String)
    (lookup : Int → String → Nat → Nat → Except String CheckStatesResponse)
    (mo : MonitorOverview) (h : monitorStateCount state mo.runtimeMetrics ≠ 0) :
    monitorRowsFor state lookup mo ≠ [] := by
  unfold monitorRowsFor
  rw [if_neg h]
  cases hres : lookup mo.monitor.id state 10 0 with
  | error e => simp
  | ok cs =>
      dsimp only
      by_cases h0 : cs.states.length = 0
      · simp [h0]
      · rw [if_neg h0]
        intro hc
        rcases List.append_eq_nil.mp hc with ⟨h1, _⟩
        rw [List.map_eq_nil_iff, List.take_eq_nil_iff] at h1
        rcases h1 with h1 | h1
        · exact absurd h1 (by decide)
        · exact h0 (by rw [h1]; rfl)

theorem monitorRows_names_toFinset (state : String)
    (lookup : Int → String → Nat → Nat → Except String CheckStatesResponse)
    (ms : List MonitorOverview) :
    ((monitorRows state lookup ms).map (fun row => row.name)).toFinset =
      ((ms.filter (fun mo => monitorStateCount state mo.runtimeMetrics ≠ 0)).map
        (fun mo => mo.monitor.name)).toFinset := by
  induction ms with
  | nil => simp [monitorRows]
  | cons mo ms ih =>
      by_cases h : monitorStateCount state mo.runtimeMetrics = 0
      · rw [monitorRows, List.flatMap_cons, monitorRowsFor_zero state lookup mo h,
          List.nil_append, List.filter_cons_of_neg (by simpa using h)]
        exact ih
      · rw [monitorRows, List.flatMap_cons, List.map_append, List.toFinset_append,
          toFinset_map_const_of_ne_nil _ _ mo.monitor.name
            (monitorRowsFor_names state lookup mo) (monitorRowsFor_ne_nil state lookup mo h),
          List.filter_cons_of_pos (by simpa using h), List.map_cons, List.toFinset_cons]
        rw [monitorRows] at ih
        rw [ih, Finset.insert_eq]

/-! ### C5 -/

/-- C5 (amended): monitors whose runtime counter for the requested state is
zero contribute no rows; the summary count is the number of distinct monitor
names in the row set (not the row count); and that number equals the number
of distinct names among the overview monitors whose counter for the
requested state is non-zero (with duplicate monitor names counted once). -/
theorem getMonitors_zero_skipped_distinct_count (state : String)
    (lookup : Int → String → Nat → Nat → Except String CheckStatesResponse)
    (ms : List MonitorOverview) (rows : List MonitorRow) (mo : MonitorOverview)
    (hzero : monitorStateCount state mo.runtimeMetrics = 0) :
    monitorRowsFor state lookup mo = [] ∧
    monitorSummaryCount rows = ((rows.map (fun row => row.name)).toFinset).card ∧
    monitorSummaryCount (monitorRows state lookup ms) =
      ((ms.filter (fun m => monitorStateCount state m.runtimeMetrics ≠ 0)).map
        (fun m => m.monitor.name)).toFinset.card :=
  ⟨monitorRowsFor_zero state lookup mo hzero, monitorSummaryCount_eq rows, by
    rw [monitorSummaryCount_eq, monitorRows_names_toFinset]⟩

/-- An overview with two distinct monitors sharing the name "m", both with a
non-zero CRITICAL counter. -/
def ovDup : MonitorsOverviewResponse :=
  { monitors := [
      { monitor := { id := 1, name := "m", description := "d1" }
        runtimeMetrics := { criticalCount := 1, deviatingCount := 0, unknownCount := 0 } },
      { monitor := { id := 2, name := "m", description := "d2" }
        runtimeMetrics := { criticalCount := 1, deviatingCount := 0, unknownCount := 0 } }] }

/-- C5 counterexample: with two overview monitors that share a name and both
have a positive CRITICAL counter, the summary line reports 1 monitor while 2
overview monitors have a strictly positive counter — the claimed equality
between the distinct-name count and the positive-counter monitor count
fails. -/
theorem getMonitors_summary_count_cex :
    monitorSummaryCount
      (monitorRows "CRITICAL" (fun _ _ _ _ => Except.error "down") ovDup.monitors) = 1 ∧
    (ovDup.monitors.filter
      (fun mo => 0 < monitorStateCount "CRITICAL" mo.runtimeMetrics)).length = 2 ∧
    GetMonitors (Except.ok ovDup) (fun _ _ _ _ => Except.error "down")
      { state := "CRITICAL" } =
      Except.ok ("Found 1 monitor(s) in CRITICAL state:\n\n" ++
        "| Monitor Name | Description | Affected Count | Affected Component |\n" ++
        "|---|---|---|---|\n" ++
        "| m | d1 | 1 | - |\n" ++
        "| m | d2 | 1 | - |\n") :=
  ⟨rfl, rfl, rfl⟩

/-- A monitor with all counters zero. -/
def moZero : MonitorOverview :=
  { monitor := { id := 3, name := "z", description := "" }
    runtimeMetrics := { criticalCount := 0, deviatingCount := 0, unknownCount := 0 } }

/-- C5 witness: the amended statement at concrete inputs — the zero-counter
monitor yields no rows, the summary count of a concrete duplicate-name row
set is its distinct-name count, and the duplicate-name overview renders with
distinct-name count 1. -/
theorem getMonitors_zero_skipped_distinct_count_witness :
    monitorRowsFor "CRITICAL" (fun _ _ _ _ => Except.error "down") moZero = [] ∧
    monitorSummaryCount
        [{ name := "m", description := "d1", affectedCount := 1, affectedComponent := "-" },
         { name := "m", description := "d2", affectedCount := 1, affectedComponent := "-" }] =
      (([{ name := "m", description := "d1", affectedCount := 1, affectedComponent := "-" },
         { name := "m", description := "d2", affectedCount := 1,
           affectedComponent := "-" }].map
          (fun (row : MonitorRow) => row.name)).toFinset).card ∧
    monitorSummaryCount
        (monitorRows "CRITICAL" (fun _ _ _ _ => Except.error "down") ovDup.monitors) =
      ((ovDup.monitors.filter
        (fun m => monitorStateCount "CRITICAL" m.runtimeMetrics ≠ 0)).map
        (fun m => m.monitor.name)).toFinset.card :=
  getMonitors_zero_skipped_distinct_count "CRITICAL" (fun _ _ _ _ => Except.error "down")
    ovDup.monitors
    [{ name := "m", description := "d1", affectedCount := 1, affectedComponent := "-" },
     { name := "m", description := "d2", affectedCount := 1, affectedComponent := "-" }]
    moZero (by decide)

/-! ### C6 -/

/-- C6: a failing or empty secondary lookup never fails the tool call.  In
GetMonitors, a failing or empty check-state lookup renders the monitor as a
single fallback row with "-" in the affected-component cell, and the tool
returns a normal text result for every lookup; in ListMetrics, a failing or
empty per-metric label lookup renders that metric's row with "-" in the
labels cell, and the tool returns a normal text result for every label
lookup. -/
theorem degraded_lookups_never_fail :
    (∀ (state : String)
       (lookup : Int → String → Nat → Nat → Except String CheckStatesResponse)
       (mo : MonitorOverview),
      monitorStateCount state mo.runtimeMetrics ≠ 0 →
      ((∃ e, lookup mo.monitor.id state 10 0 = Except.error e) ∨
        lookup mo.monitor.id state 10 0 = Except.ok { states := [] }) →
      monitorRowsFor state lookup mo =
        [monitorFallbackRow mo (monitorStateCount state mo.runtimeMetrics)]) ∧
    (∀ (ov : MonitorsOverviewResponse)
       (lookup : Int → String → Nat → Nat → Except String CheckStatesResponse)
       (params : GetMonitorsParams),
      params.state = "" ∨ params.state = "CRITICAL" ∨ params.state = "DEVIATING" ∨
        params.state = "UNKNOWN" →
      ∃ out, GetMonitors (Except.ok ov) lookup params = Except.ok out) ∧
    (∀ (getLabels : String → Except String (List String)) (name : String),
      ((∃ e, getLabels name = Except.error e) ∨ getLabels name = Except.ok []) →
      metricLabelRow getLabels name = "| " ++ name ++ " | - |\n") ∧
    (∀ (metrics : List String) (f : String → Bool)
       (getLabels : String → Except String (List String)) (pattern : String),
      pattern ≠ "" →
      ∃ out, ListMetrics (Except.ok metrics) (fun _ => Except.ok f) getLabels pattern =
        Except.ok out) := by
  refine ⟨?_, ?_, ?_, ?_⟩
  · intro state lookup mo hc hlk
    unfold monitorRowsFor
    rw [if_neg hc]
    rcases hlk with ⟨e, he⟩ | hok
    · rw [he]
    · rw [hok]
      rfl
  · intro ov lookup params hv
    have hst : monitorsStateOrDefault params = "CRITICAL" ∨
        monitorsStateOrDefault params = "DEVIATING" ∨
        monitorsStateOrDefault params = "UNKNOWN" := by
      unfold monitorsStateOrDefault
      rcases hv with h | h | h | h <;> simp [h]
    unfold GetMonitors
    rw [if_pos hst]
    dsimp only
    split <;> exact ⟨_, rfl⟩
  · intro getLabels name h
    rcases h with ⟨e, he⟩ | hok
    · unfold metricLabelRow
      rw [he]
    · unfold metricLabelRow
      rw [hok]
      simp [String.append_assoc]
  · intro metrics f getLabels pattern hp
    unfold ListMetrics
    rw [if_neg hp]
    dsimp only
    split <;> exact ⟨_, rfl⟩

/-- C6 witness: concrete degraded lookups — a failing check-state lookup
renders the fallback row and GetMonitors still succeeds; a failing label
lookup renders a "-" labels cell and ListMetrics still succeeds. -/
theorem degraded_lookups_never_fail_witness :
    monitorRowsFor "DEVIATING" (fun _ _ _ _ => Except.error "boom") moEx =
      [monitorFallbackRow moEx 7] ∧
    (∃ out, GetMonitors (Except.ok ovDup) (fun _ _ _ _ => Except.error "boom")
      { state := "DEVIATING" } = Except.ok out) ∧
    metricLabelRow (fun _ => Except.error "nope") "cpu_usage" = "| cpu_usage | - |\n" ∧
    (∃ out, ListMetrics (Except.ok ["cpu_usage"]) (fun _ => Except.ok (fun _ => true))
      (fun _ => Except.error "nope") "cpu" = Except.ok out) :=
  ⟨degraded_lookups_never_fail.1 "DEVIATING" (fun _ _ _ _ => Except.error "boom") moEx
      (by decide) (Or.inl ⟨"boom", rfl⟩),
   degraded_lookups_never_fail.2.1 ovDup (fun _ _ _ _ => Except.error "boom")
      { state := "DEVIATING" } (Or.inr (Or.inr (Or.inl rfl))),
   degraded_lookups_never_fail.2.2.1 (fun _ => Except.error "nope") "cpu_usage"
      (Or.inl ⟨"nope", rfl⟩),
   degraded_lookups_never_fail.2.2.2 ["cpu_usage"] (fun _ => true)
      (fun _ => Except.error "nope") "cpu" (by decide)⟩

/-! ### C7 -/

/-- C7 (amended): the validation errors of GetComponents (missing
filter/query, neighbor expansion without a base filter, invalid neighbor
direction) and of GetMonitors (invalid health state) and the missing
search-pattern error of ListMetrics are surfaced for every backend, so with
no backend call attempted; the unparsable-regular-expression error of
ListMetrics is surfaced before any per-metric label lookup, but only after
the metric-name listing backend call has succeeded. -/
theorem validation_errors_before_backend :
    (∀ (backend : String → Except String (List ViewComponent))
       (params : GetComponentsParams),
      params.query = "" → params.withNeighbors = false → componentBaseQuery params = "" →
      GetComponents backend params = Except.error
        "either 'query' or at least one filter (name_pattern, type, layer, domain, healthstate) must be provided") ∧
    (∀ (backend : String → Except String (List ViewComponent))
       (params : GetComponentsParams),
      params.query = "" → params.withNeighbors = true → componentBaseQuery params = "" →
      GetComponents backend params = Except.error
        "with_neighbors requires at least one filter to define the components") ∧
    (∀ (backend : String → Except String (List ViewComponent))
       (params : GetComponentsParams),
      params.query = "" → params.withNeighbors = true → componentBaseQuery params ≠ "" →
      ¬(neighborsDirection params = "up" ∨ neighborsDirection params = "down" ∨
        neighborsDirection params = "both") →
      GetComponents backend params = Except.error
        ("invalid with_neighbors_direction '" ++ neighborsDirection params ++
          "'. Must be 'up', 'down', or 'both'")) ∧
    (∀ (overviewO : Except String MonitorsOverviewResponse)
       (lookup : Int → String → Nat → Nat → Except String CheckStatesResponse)
       (params : GetMonitorsParams),
      ¬(monitorsStateOrDefault params = "CRITICAL" ∨
        monitorsStateOrDefault params = "DEVIATING" ∨
        monitorsStateOrDefault params = "UNKNOWN") →
      GetMonitors overviewO lookup params = Except.error
        ("invalid state '" ++ monitorsStateOrDefault params ++
          "'. Allowed values: CRITICAL, DEVIATING, UNKNOWN")) ∧
    (∀ (backendList : Except String (List String))
       (compileRe : String → Except String (String → Bool))
       (getLabels : String → Except String (List String)),
      ListMetrics backendList compileRe getLabels "" =
        Except.error "search_pattern is required") ∧
    (∀ (metrics : List String) (compileRe : String → Except String (String → Bool))
       (getLabels : String → Except String (List String)) (pattern e : String),
      pattern ≠ "" → compileRe pattern = Except.error e →
      ListMetrics (Except.ok metrics) compileRe getLabels pattern =
        Except.error ("invalid regex pattern: " ++ e)) := by
  refine ⟨?_, ?_, ?_, ?_, ?_, ?_⟩
  · intro backend params hraw hwn hbase
    unfold GetComponents buildComponentsQuery
    rw [if_neg (by simp [hraw]), hwn]
    rw [if_neg (by decide), if_pos hbase]
  · intro backend params hraw hwn hbase
    unfold GetComponents buildComponentsQuery
    rw [if_neg (by simp [hraw]), hwn, if_pos rfl, if_pos hbase]
  · intro backend params hraw hwn hbase hdir
    unfold GetComponents buildComponentsQuery
    rw [if_neg (by simp [hraw]), hwn, if_pos rfl, if_neg hbase, if_neg hdir]
  · intro overviewO lookup params hv
    unfold GetMonitors
    rw [if_neg hv]
  · intro backendList compileRe getLabels
    unfold ListMetrics
    rw [if_pos rfl]
  · intro metrics compileRe getLabels pattern e hp hre
    unfold ListMetrics
    rw [if_neg hp]
    dsimp only
    rw [hre]

/-- C7 counterexample: with the same unparsable search pattern the outcome
of ListMetrics depends on the metric-listing backend response — when that
call fails, its failure is reported instead of the regex validation error —
so the unparsable-regex validation error is not surfaced before the backend
call, contrary to the claim. -/
theorem listMetrics_regex_after_backend_cex :
    ListMetrics (Except.error "backend down") (fun _ => Except.error "missing closing paren")
      (fun _ => Except.ok []) "(" = Except.error "failed to list metrics: backend down" ∧
    ListMetrics (Except.ok []) (fun _ => Except.error "missing closing paren")
      (fun _ => Except.ok []) "(" =
        Except.error "invalid regex pattern: missing closing paren" ∧
    (Except.error "failed to list metrics: backend down" : Except String String) ≠
      Except.error "invalid regex pattern: missing closing paren" :=
  ⟨rfl, rfl, fun h => absurd (Except.error.inj h) (by decide)⟩

/-- A parameter object with no raw query and no named filter. -/
def cParamsEmpty : GetComponentsParams :=
  { query := "", namePattern := "", type := "", layer := "", domain := ""
    healthState := "", withNeighbors := false, withNeighborsLevels := ""
    withNeighborsDirection := "" }

/-- C7 witness: three concrete validation failures — missing filter/query in
GetComponents, invalid health state in GetMonitors, and an uncompilable
search pattern in ListMetrics after a successful listing call. -/
theorem validation_errors_before_backend_witness :
    GetComponents (fun _ => Except.ok []) cParamsEmpty = Except.error
      "either 'query' or at least one filter (name_pattern, type, layer, domain, healthstate) must be provided" ∧
    GetMonitors (Except.ok ovDup) (fun _ _ _ _ => Except.error "x") { state := "BAD" } =
      Except.error "invalid state 'BAD'. Allowed values: CRITICAL, DEVIATING, UNKNOWN" ∧
    ListMetrics (Except.ok []) (fun _ => Except.error "missing closing paren")
      (fun _ => Except.ok []) "(" =
        Except.error ("invalid regex pattern: " ++ "missing closing paren") :=
  ⟨validation_errors_before_backend.1 (fun _ => Except.ok []) cParamsEmpty rfl rfl (by decide),
   validation_errors_before_backend.2.2.2.1 (Except.ok ovDup) (fun _ _ _ _ => Except.error "x")
     { state := "BAD" } (by decide),
   validation_errors_before_backend.2.2.2.2.2 [] (fun _ => Except.error "missing closing paren")
     (fun _ => Except.ok []) "(" "missing closing paren" (by decide) rfl⟩

/-! ### C8 helpers -/

theorem concatAll_append (l1 l2 : List String) :
    concatAll (l1 ++ l2) = concatAll l1 ++ concatAll l2 := by
  induction l1 with
  | nil => rw [List.nil_append, concatAll, String.empty_append]
  | cons x xs ih => rw [List.cons_append, concatAll, concatAll, ih, String.append_assoc]

theorem concatAll_flatMap {α : Type} (g : α → List String) (l : List α) :
    concatAll (l.flatMap g) = concatAll (l.map (fun x => concatAll (g x))) := by
  induction l with
  | nil => rfl
  | cons x xs ih => rw [List.flatMap_cons, concatAll_append, ih, List.map_cons, concatAll]

theorem foldl_eq_concatAll {α : Type} (step : String → α → String) (f : α → String)
    (h : ∀ s x, step s x = s ++ f x) (xs : List α) (acc : String) :
    xs.foldl step acc = acc ++ concatAll (xs.map f) := by
  induction xs generalizing acc with
  | nil => rw [List.foldl_nil, List.map_nil, concatAll, String.append_empty]
  | cons x xs ih =>
      rw [List.foldl_cons, h, ih, List.map_cons, concatAll, ← String.append_assoc]

/-- The label cells of one data row, as the Go inner loop produces them. -/
theorem metricCells_fold (labels : List (String × String)) (ks : List String) :
    ks.foldl (fun s3 k => s3 ++ " " ++ metricLabelCell labels k ++ " |") "" =
      concatAll (ks.map (fun k => " " ++ metricLabelCell labels k ++ " |")) := by
  rw [foldl_eq_concatAll _ (fun k => " " ++ metricLabelCell labels k ++ " |")
    (fun s k => by simp [String.append_assoc]) ks "", String.empty_append]

/-- The header line of the metrics table. -/
def metricsHeaderLine (ks : List String) : String :=
  "| Timestamp | Value |" ++ concatAll (ks.map (fun k => " " ++ k ++ " |")) ++ "\n"

/-- The separator line of the metrics table. -/
def metricsSepLine (ks : List String) : String :=
  "|---|---|" ++ concatAll (ks.map (fun _ => "---|")) ++ "\n"

/-- One data row of the metrics table: timestamp, value, then one cell per
unified column key. -/
def metricPointRow (fmtTs : Int → String) (fmtVal : Float → String) (ks : List String)
    (labels : List (String × String)) (p : MetricPoint) : String :=
  "| " ++ fmtTs p.timestamp ++ " | " ++ fmtVal p.value ++ " |" ++
    concatAll (ks.map (fun k => " " ++ metricLabelCell labels k ++ " |")) ++ "\n"

theorem metricPointsFold (fmtTs : Int → String) (fmtVal : Float → String) (ks : List String)
    (labels : List (String × String)) (pts : List MetricPoint) (acc : String) :
    pts.foldl (fun s2 p =>
        s2 ++ "| " ++ fmtTs p.timestamp ++ " | " ++ fmtVal p.value ++ " |" ++
        (ks.foldl (fun s3 k => s3 ++ " " ++ metricLabelCell labels k ++ " |") "") ++
        "\n") acc =
      acc ++ concatAll (pts.map (metricPointRow fmtTs fmtVal ks labels)) := by
  refine foldl_eq_concatAll _ _ (fun s p => ?_) pts acc
  rw [metricCells_fold]
  simp [metricPointRow, String.append_assoc]

/-- formatMetrics on a non-empty result is the header line, the separator
line and one row per (series, sample) pair, in input series order and input
sample order. -/
theorem formatMetrics_decomp (fmtTs : Int → String) (fmtVal : Float → String)
    (ms : List MetricResult) (queryName : String) (h : ms ≠ []) :
    formatMetrics fmtTs fmtVal ms queryName =
      metricsHeaderLine (metricSortedKeys ms) ++ metricsSepLine (metricSortedKeys ms) ++
      concatAll (ms.flatMap (fun r =>
        r.points.map (metricPointRow fmtTs fmtVal (metricSortedKeys ms) r.labels))) := by
  unfold formatMetrics
  rw [if_neg (by simpa [List.length_eq_zero] using h)]
  rw [foldl_eq_concatAll _ (fun k => " " ++ k ++ " |")
        (fun s k => by simp [String.append_assoc]) (metricSortedKeys ms) "| Timestamp | Value |",
      foldl_eq_concatAll _ (fun (_ : String) => "---|") (fun s k => rfl)
        (metricSortedKeys ms) "|---|---|",
      foldl_eq_concatAll _
        (fun res => concatAll (res.points.map
          (metricPointRow fmtTs fmtVal (metricSortedKeys ms) res.labels)))
        (fun s res => metricPointsFold fmtTs fmtVal (metricSortedKeys ms) res.labels
          res.points s) ms "",
      String.empty_append, concatAll_flatMap]
  simp [metricsHeaderLine, metricsSepLine, String.append_assoc]

theorem mem_insertKey (acc : List String) (k j : String) :
    j ∈ insertKey acc k ↔ j ∈ acc ∨ (j = k ∧ k ≠ "__name__") := by
  unfold insertKey
  by_cases h1 : k = "__name__"
  · simp [h1]
  · by_cases h2 : k ∈ acc
    · rw [if_neg (by simp [h2])]
      constructor
      · exact Or.inl
      · rintro (h | ⟨rfl, _⟩)
        · exact h
        · exact h2
    · rw [if_pos ⟨h1, h2⟩]
      simp [List.mem_append, h1]

theorem nodup_insertKey (acc : List String) (k : String) (h : acc.Nodup) :
    (insertKey acc k).Nodup := by
  unfold insertKey
  split
  · rename_i hc
    rw [List.nodup_append]
    refine ⟨h, List.nodup_singleton k, ?_⟩
    intro a ha hak
    rw [List.mem_singleton] at hak
    exact hc.2 (hak ▸ ha)
  · exact h

theorem mem_collectSeriesKeys (labels : List (String × String)) :
    ∀ (acc : List String) (j : String),
      j ∈ collectSeriesKeys acc labels ↔
        j ∈ acc ∨ (j ≠ "__name__" ∧ j ∈ labels.map Prod.fst) := by
  induction labels with
  | nil => intro acc j; simp [collectSeriesKeys]
  | cons kv labels ih =>
      intro acc j
      rw [collectSeriesKeys, List.foldl_cons]
      have := ih (insertKey acc kv.1) j
      rw [collectSeriesKeys] at this
      rw [this, mem_insertKey]
      simp only [List.map_cons, List.mem_cons]
      constructor
      · rintro ((h | ⟨rfl, hn⟩) | ⟨hn, hm⟩)
        · exact Or.inl h
        · exact Or.inr ⟨hn, Or.inl rfl⟩
        · exact Or.inr ⟨hn, Or.inr hm⟩
      · rintro (h | ⟨hn, (h | h)⟩)
        · exact Or.inl (Or.inl h)
        · exact Or.inl (Or.inr ⟨h, h ▸ hn⟩)
        · exact Or.inr ⟨hn, h⟩

theorem nodup_collectSeriesKeys (labels : List (String × String)) :
    ∀ acc : List String, acc.Nodup → (collectSeriesKeys acc labels).Nodup := by
  induction labels with
  | nil => intro acc h; exact h
  | cons kv labels ih =>
      intro acc h
      rw [collectSeriesKeys, List.foldl_cons]
      exact ih (insertKey acc kv.1) (nodup_insertKey acc kv.1 h)

theorem mem_collectLabelKeys (ms : List MetricResult) :
    ∀ (acc : List String) (j : String),
      j ∈ ms.foldl (fun a res => collectSeriesKeys a res.labels) acc ↔
        j ∈ acc ∨ (j ≠ "__name__" ∧ ∃ r ∈ ms, j ∈ r.labels.map Prod.fst) := by
  induction ms with
  | nil => intro acc j; simp
  | cons res ms ih =>
      intro acc j
      rw [List.foldl_cons, ih, mem_collectSeriesKeys]
      constructor
      · rintro ((h | ⟨hn, hm⟩) | ⟨hn, r, hr, hm⟩)
        · exact Or.inl h
        · exact Or.inr ⟨hn, res, List.mem_cons_self res ms, hm⟩
        · exact Or.inr ⟨hn, r, List.mem_cons_of_mem res hr, hm⟩
      · rintro (h | ⟨hn, r, hr, hm⟩)
        · exact Or.inl (Or.inl h)
        · rcases List.mem_cons.mp hr with rfl | hr
          · exact Or.inl (Or.inr ⟨hn, hm⟩)
          · exact Or.inr ⟨hn, r, hr, hm⟩

theorem nodup_collectLabelKeys (ms : List MetricResult) : (collectLabelKeys ms).Nodup := by
  rw [collectLabelKeys]
  have : ∀ acc : List String, acc.Nodup →
      (ms.foldl (fun a res => collectSeriesKeys a res.labels) acc).Nodup := by
    induction ms with
    | nil => intro acc h; exact h
    | cons res ms ih =>
        intro acc h
        rw [List.foldl_cons]
        exact ih _ (nodup_collectSeriesKeys res.labels acc h)
  exact this [] List.nodup_nil

theorem metricSortedKeys_mem (ms : List MetricResult) (j : String) :
    j ∈ metricSortedKeys ms ↔
      j ≠ "__name__" ∧ ∃ r ∈ ms, j ∈ r.labels.map Prod.fst := by
  rw [metricSortedKeys, (List.perm_insertionSort _ (collectLabelKeys ms)).mem_iff,
    collectLabelKeys, mem_collectLabelKeys]
  simp

theorem metricSortedKeys_sorted (ms : List MetricResult) :
    (metricSortedKeys ms).Sorted (· ≤ ·) := by
  have hs := List.sorted_insertionSort (fun x y : String => x.data ≤ y.data)
    (collectLabelKeys ms)
  exact hs.imp fun h => String.le_iff_toList_le.mpr h

theorem metricSortedKeys_nodup (ms : List MetricResult) : (metricSortedKeys ms).Nodup :=
  (List.perm_insertionSort _ _).nodup_iff.mpr (nodup_collectLabelKeys ms)

/-- Two results with the same label-key sets get the same sorted column
keys. -/
theorem metricSortedKeys_congr (ms1 ms2 : List MetricResult)
    (h : ∀ j, (j ∈ metricSortedKeys ms1) ↔ (j ∈ metricSortedKeys ms2)) :
    metricSortedKeys ms1 = metricSortedKeys ms2 := by
  apply List.eq_of_perm_of_sorted _ (List.sorted_insertionSort _ (collectLabelKeys ms1))
    (List.sorted_insertionSort _ (collectLabelKeys ms2))
  exact (List.perm_ext_iff_of_nodup (metricSortedKeys_nodup ms1)
    (metricSortedKeys_nodup ms2)).mpr h

/-- A column key the series does not carry renders "-" (the Go map lookup of
an absent key yields "", which the renderer replaces by "-"). -/
theorem metricLabelCell_missing (labels : List (String × String)) (k : String)
    (h : k ∉ labels.map Prod.fst) : metricLabelCell labels k = "-" := by
  have hf : labels.find? (fun kv => kv.1 = k) = none := by
    rw [List.find?_eq_none]
    intro kv hkv
    simp only [decide_eq_true_eq]
    intro he
    exact h (List.mem_map.mpr ⟨kv, hkv, he⟩)
  unfold metricLabelCell lookupLabel
  rw [hf]
  rfl

/-- Appending a key bound to the empty string changes no lookup result: an
absent key and an empty-valued key both look up to "". -/
theorem lookupLabel_append_empty (labels : List (String × String)) (k j : String) :
    lookupLabel (labels ++ [(k, "")]) j = lookupLabel labels j := by
  unfold lookupLabel
  rw [List.find?_append]
  cases h : labels.find? (fun kv => kv.1 = j) with
  | some kv => rfl
  | none =>
      rw [Option.none_or]
      by_cases hkj : k = j <;> simp [List.find?, hkj]

/-! ### C8 -/

/-- C8: for a non-empty result, the label columns are exactly the
lexicographically sorted deduplicated union of the label keys of all series
minus "__name__"; a series lacking a key renders "-" in that column; and the
output is the header, the separator and one row per (series, sample) pair in
input series order then input sample order. -/
theorem formatMetrics_schema_and_order (fmtTs : Int → String) (fmtVal : Float → String)
    (ms : List MetricResult) (queryName : String) (h : ms ≠ []) :
    (∀ j, j ∈ metricSortedKeys ms ↔
      j ≠ "__name__" ∧ ∃ r ∈ ms, j ∈ r.labels.map Prod.fst) ∧
    (metricSortedKeys ms).Sorted (· ≤ ·) ∧
    (metricSortedKeys ms).Nodup ∧
    (∀ (labels : List (String × String)) (k : String),
      k ∉ labels.map Prod.fst → metricLabelCell labels k = "-") ∧
    formatMetrics fmtTs fmtVal ms queryName =
      metricsHeaderLine (metricSortedKeys ms) ++ metricsSepLine (metricSortedKeys ms) ++
      concatAll (ms.flatMap (fun r =>
        r.points.map (metricPointRow fmtTs fmtVal (metricSortedKeys ms) r.labels))) :=
  ⟨metricSortedKeys_mem ms, metricSortedKeys_sorted ms, metricSortedKeys_nodup ms,
   metricLabelCell_missing, formatMetrics_decomp fmtTs fmtVal ms queryName h⟩

/-- Two series: one with labels b and a (and the reserved "__name__" key, a
being empty-valued), one carrying only a. -/
def msEx : List MetricResult :=
  [{ labels := [("__name__", "m"), ("b", "v1"), ("a", "")]
     points := [{ timestamp := 0, value := 1.0 }, { timestamp := 1, value := 2.0 }] },
   { labels := [("a", "w")], points := [{ timestamp := 2, value := 3.0 }] }]

/-- C8 witness: on concrete series the column set is the sorted union
["a", "b"] without "__name__", the series lacking b renders "-" there, and
the output decomposes into header, separator and the rows in input order. -/
theorem formatMetrics_schema_and_order_witness :
    metricSortedKeys msEx = ["a", "b"] ∧
    metricLabelCell [("a", "w")] "b" = "-" ∧
    formatMetrics (fun t => toString t) (fun _ => "v") msEx "q" =
      metricsHeaderLine ["a", "b"] ++ metricsSepLine ["a", "b"] ++
      concatAll (msEx.flatMap (fun r =>
        r.points.map (metricPointRow (fun t => toString t) (fun _ => "v") ["a", "b"]
          r.labels))) := by
  have h := formatMetrics_schema_and_order (fun t => toString t) (fun _ => "v") msEx "q"
    (by simp [msEx])
  have hks : metricSortedKeys msEx = ["a", "b"] := by decide
  refine ⟨hks, h.2.2.2.1 [("a", "w")] "b" (by decide), ?_⟩
  have h5 := h.2.2.2.2
  rw [hks] at h5
  exact h5

/-! ### C10 helpers -/

theorem metricLabelCell_append_empty (labels : List (String × String)) (k j : String) :
    metricLabelCell (labels ++ [(k, "")]) j = metricLabelCell labels j := by
  unfold metricLabelCell
  rw [lookupLabel_append_empty]

theorem metricPointRow_append_empty (fmtTs : Int → String) (fmtVal : Float → String)
    (ks : List String) (labels : List (String × String)) (k : String) (p : MetricPoint) :
    metricPointRow fmtTs fmtVal ks (labels ++ [(k, "")]) p =
      metricPointRow fmtTs fmtVal ks labels p := by
  unfold metricPointRow
  simp only [metricLabelCell_append_empty]

theorem metricSortedKeys_cons_append_empty (labels : List (String × String))
    (pts : List MetricPoint) (k : String) (rest : List MetricResult)
    (hk : k ∈ rest.flatMap fun r => r.labels.map Prod.fst) :
    metricSortedKeys ({ labels := labels ++ [(k, "")], points := pts } :: rest) =
      metricSortedKeys ({ labels := labels, points := pts } :: rest) := by
  apply metricSortedKeys_congr
  intro j
  rw [metricSortedKeys_mem, metricSortedKeys_mem]
  apply and_congr_right
  intro hn
  constructor
  · rintro ⟨r, hr, hm⟩
    rcases List.mem_cons.mp hr with rfl | hr
    · rw [List.map_append] at hm
      rcases List.mem_append.mp hm with hm | hm
      · exact ⟨{ labels := labels, points := pts }, List.mem_cons_self _ _, hm⟩
      · rcases List.mem_flatMap.mp hk with ⟨r2, hr2, hm2⟩
        rw [show j = k from by simpa using hm]
        exact ⟨r2, List.mem_cons_of_mem _ hr2, hm2⟩
    · exact ⟨r, List.mem_cons_of_mem _ hr, hm⟩
  · rintro ⟨r, hr, hm⟩
    rcases List.mem_cons.mp hr with rfl | hr
    · refine ⟨{ labels := labels ++ [(k, "")], points := pts }, List.mem_cons_self _ _, ?_⟩
      rw [List.map_append]
      exact List.mem_append_left _ hm
    · exact ⟨r, List.mem_cons_of_mem _ hr, hm⟩

/-! ### C10 -/

/-- C10: a label cell renders "-" whenever the looked-up value is the empty
string, so a series carrying a key bound to "" renders cell-for-cell and
row-for-row exactly like a series lacking the key; and when the key also
occurs in another series (so the unified column set is unchanged), the whole
rendered table is identical. -/
theorem metric_empty_label_indistinguishable :
    (∀ (labels : List (String × String)) (k j : String),
      metricLabelCell (labels ++ [(k, "")]) j = metricLabelCell labels j) ∧
    (∀ (fmtTs : Int → String) (fmtVal : Float → String) (ks : List String)
       (labels : List (String × String)) (k : String) (p : MetricPoint),
      metricPointRow fmtTs fmtVal ks (labels ++ [(k, "")]) p =
        metricPointRow fmtTs fmtVal ks labels p) ∧
    (∀ (fmtTs : Int → String) (fmtVal : Float → String)
       (labels : List (String × String)) (pts : List MetricPoint) (k : String)
       (rest : List MetricResult) (queryName : String),
      k ∈ rest.flatMap (fun r => r.labels.map Prod.fst) →
      formatMetrics fmtTs fmtVal
          ({ labels := labels ++ [(k, "")], points := pts } :: rest) queryName =
        formatMetrics fmtTs fmtVal ({ labels := labels, points := pts } :: rest) queryName) := by
  refine ⟨metricLabelCell_append_empty, metricPointRow_append_empty, ?_⟩
  intro fmtTs fmtVal labels pts k rest queryName hk
  rw [formatMetrics_decomp fmtTs fmtVal _ queryName (List.cons_ne_nil _ _),
    formatMetrics_decomp fmtTs fmtVal _ queryName (List.cons_ne_nil _ _),
    metricSortedKeys_cons_append_empty labels pts k rest hk]
  simp only [List.flatMap_cons]
  rw [funext (metricPointRow_append_empty fmtTs fmtVal
    (metricSortedKeys ({ labels := labels, points := pts } :: rest)) labels k)]

/-- The other series of the C10 witness: it also carries the key a. -/
def restEx : List MetricResult :=
  [{ labels := [("a", "w")], points := [{ timestamp := 2, value := 3.0 }] }]

/-- C10 witness: at a concrete series carrying a ↦ "" the cell, the row and
(because another series carries a) the whole table are identical to the
series without the key a. -/
theorem metric_empty_label_indistinguishable_witness :
    metricLabelCell ([("x", "1")] ++ [("a", "")]) "a" = metricLabelCell [("x", "1")] "a" ∧
    metricPointRow (fun t => toString t) (fun _ => "v") ["a", "x"]
        ([("x", "1")] ++ [("a", "")]) { timestamp := 0, value := 1.0 } =
      metricPointRow (fun t => toString t) (fun _ => "v") ["a", "x"] [("x", "1")]
        { timestamp := 0, value := 1.0 } ∧
    formatMetrics (fun t => toString t) (fun _ => "v")
        ({ labels := [("x", "1")] ++ [("a", "")],
           points := [{ timestamp := 0, value := 1.0 }] } :: restEx) "q" =
      formatMetrics (fun t => toString t) (fun _ => "v")
        ({ labels := [("x", "1")],
           points := [{ timestamp := 0, value := 1.0 }] } :: restEx) "q" :=
  ⟨metric_empty_label_indistinguishable.1 [("x", "1")] "a" "a",
   metric_empty_label_indistinguishable.2.1 (fun t => toString t) (fun _ => "v") ["a", "x"]
     [("x", "1")] "a" { timestamp := 0, value := 1.0 },
   metric_empty_label_indistinguishable.2.2 (fun t => toString t) (fun _ => "v")
     [("x", "1")] [{ timestamp := 0, value := 1.0 }] "a" restEx "q" (by decide)⟩

/-! ### C9 -/

/-- C9 (amended): zero-match primary results never produce an error:
GetComponents with zero matching components returns the normal text result
"No components found for query: <query>" for the executed query, and a range
query with zero series returns "No data found." — both fixed messages, with
a capital letter (and, for metrics, a trailing period) unlike the casing
quoted in the claim. -/
theorem zero_match_messages :
    (∀ (backend : String → Except String (List ViewComponent))
       (params : GetComponentsParams) (query : String),
      buildComponentsQuery params = Except.ok query →
      backend query = Except.ok [] →
      GetComponents backend params =
        Except.ok ("No components found for query: " ++ query)) ∧
    (∀ (fmtTs : Int → String) (fmtVal : Float → String) (queryName : String),
      formatMetrics fmtTs fmtVal [] queryName = "No data found.") ∧
    (∀ (parseTimeO : String → Except String Int)
       (backend : String → Int → Int → String → String → Except String (List MetricResult))
       (fmtTs : Int → String) (fmtVal : Float → String) (params : QueryRangeMetricParams)
       (s t : Int),
      parseTimeO params.start = Except.ok s → parseTimeO params.stop = Except.ok t →
      backend params.query s t (if params.step = "" then "1m" else params.step) "30s" =
        Except.ok [] →
      QueryRangeMetric parseTimeO backend fmtTs fmtVal params =
        Except.ok "No data found.") := by
  refine ⟨?_, ?_, ?_⟩
  · intro backend params query hbuild hback
    unfold GetComponents
    rw [hbuild]
    dsimp only
    unfold runComponentsQuery
    rw [hback]
    rfl
  · intro fmtTs fmtVal queryName
    rfl
  · intro parseTimeO backend fmtTs fmtVal params s t hs ht hback
    unfold QueryRangeMetric
    rw [hs, ht]
    dsimp only
    rw [hback]
    rfl

/-- C9 counterexample: the fixed messages are "No data found." and
"No components found for query: <query>", which differ from the strings
"no data found" and "no components found for query: <query>" that the claim
requires verbatim. -/
theorem zero_match_verbatim_cex :
    formatMetrics (fun t => toString t) (fun _ => "v") [] "q" = "No data found." ∧
    "No data found." ≠ "no data found" ∧
    formatComponentsTable [] cParamsEmpty "name = \"x\"" =
      "No components found for query: name = \"x\"" ∧
    "No components found for query: name = \"x\"" ≠
      "no components found for query: name = \"x\"" :=
  ⟨rfl, by decide, rfl, by decide⟩

/-- C9 witness: concrete zero-match calls — a components query that matches
nothing yields the normal "No components found" text, and a range query with
zero series yields the normal "No data found." text. -/
theorem zero_match_messages_witness :
    GetComponents (fun _ => Except.ok []) cParamsNamed =
      Except.ok ("No components found for query: " ++ componentBaseQuery cParamsNamed) ∧
    QueryRangeMetric (fun _ => Except.ok 0) (fun _ _ _ _ _ => Except.ok [])
      (fun t => toString t) (fun _ => "v")
      { query := "up", start := "1h", stop := "now", step := "" } =
      Except.ok "No data found." :=
  ⟨zero_match_messages.1 (fun _ => Except.ok []) cParamsNamed
     (componentBaseQuery cParamsNamed) rfl rfl,
   zero_match_messages.2.2 (fun _ => Except.ok 0) (fun _ _ _ _ _ => Except.ok [])
     (fun t => toString t) (fun _ => "v")
     { query := "up", start := "1h", stop := "now", step := "" } 0 0 rfl rfl rfl⟩
